import Mathlib

set_option linter.unusedVariables false

/-!
Shallow embedding of the `log` package (a zap-based structured-logging
facade): severity levels and their name table, the `options` record with
its `build` pipeline and `Validate`, the functional option setters, and
the `Logger` facade (`Build`, leveled methods, `WithValues`, `Flush`).

Go `int`/`int8` values are modelled as `Int` (no claim exercises
overflow).  Effects of the external zap backend (actual sink writes,
mutexes, the unused `sync.Pool` of `Entry` records) are elided; what the
facade configures on the backend (encoder, cores, caller/stacktrace
switches, name, bound fields) is modelled explicitly.  A nil Go pointer
dereference is modelled as an explicit runtime-error value.
-/

namespace LogFacade

/-! ## Levels (options.go lines 5-23)

Go: `type Level int8` with `Debug = -1, Info = 0, Warn, Error, Panic, Fatal`. -/

def DebugLevel : Int := -1
def InfoLevel  : Int := 0
def WarnLevel  : Int := 1
def ErrorLevel : Int := 2
def PanicLevel : Int := 3
def FatalLevel : Int := 4

/-- The Go map literal `LevelNameMapping`, as its list of entries. -/
def levelNameMappingList : List (Int × String) :=
  [(DebugLevel, "DEBUG"), (InfoLevel, "INFO"), (WarnLevel, "WARN"),
   (ErrorLevel, "ERROR"), (PanicLevel, "PANIC"), (FatalLevel, "FATAL")]

/-- Reading the Go map: a missing key yields the zero value `""`. -/
def LevelNameMapping (l : Int) : String :=
  (levelNameMappingList.lookup l).getD ""

/-! ## zap backend levels (external collaborator `go.uber.org/zap/zapcore`)

zapcore: `Debug = -1, Info = 0, Warn = 1, Error = 2, DPanic = 3,
Panic = 4, Fatal = 5`.  Note zap has a `DPanic` level the facade does
not, so the numeric values of `Panic`/`Fatal` differ between the two
enumerations. -/

def zapDebugLevel  : Int := -1
def zapInfoLevel   : Int := 0
def zapWarnLevel   : Int := 1
def zapErrorLevel  : Int := 2
def zapDPanicLevel : Int := 3
def zapPanicLevel  : Int := 4
def zapFatalLevel  : Int := 5

/-- ASCII lowercasing of one character (the inputs the repository
compares — format names and level names — are ASCII; Go's
`strings.ToLower` agrees with this on ASCII). -/
def asciiToLower (c : Char) : Char :=
  if 'A' ≤ c ∧ c ≤ 'Z' then Char.ofNat (c.toNat + 32) else c

/-- `strings.ToLower` restricted to ASCII, as an executable function. -/
def strToLower (s : String) : String :=
  String.mk (s.data.map asciiToLower)

/-- One pass of `zapcore.Level.unmarshalText`: the exact case switch. -/
def zapUnmarshalTextOne (s : String) : Option Int :=
  if s = "debug" ∨ s = "DEBUG" then some zapDebugLevel
  else if s = "info" ∨ s = "INFO" ∨ s = "" then some zapInfoLevel
  else if s = "warn" ∨ s = "WARN" then some zapWarnLevel
  else if s = "error" ∨ s = "ERROR" then some zapErrorLevel
  else if s = "dpanic" ∨ s = "DPANIC" then some zapDPanicLevel
  else if s = "panic" ∨ s = "PANIC" then some zapPanicLevel
  else if s = "fatal" ∨ s = "FATAL" then some zapFatalLevel
  else none

/-- `zapcore.Level.UnmarshalText`: tries the text, then its lowercase. -/
def zapUnmarshalText (s : String) : Option Int :=
  match zapUnmarshalTextOne s with
  | some l => some l
  | none => zapUnmarshalTextOne (strToLower s)

/-- `zapcore.Level.CapitalString`: the uppercase display name. -/
def zapCapitalString (l : Int) : String :=
  if l = zapDebugLevel then "DEBUG"
  else if l = zapInfoLevel then "INFO"
  else if l = zapWarnLevel then "WARN"
  else if l = zapErrorLevel then "ERROR"
  else if l = zapDPanicLevel then "DPANIC"
  else if l = zapPanicLevel then "PANIC"
  else if l = zapFatalLevel then "FATAL"
  else "LEVEL(" ++ toString l ++ ")"

/-! ## Output paths and the options record (options.go / part_000) -/

/-- Go: `type OutputPath string`; `FileOutputPath = "file"`. -/
def FileOutputPath : String := "file"

/-- Go: `StdoutOutputPath OutputPath = "stdout"`. -/
def StdoutOutputPath : String := "stdout"

def consoleFormat : String := "console"
def jsonFormat : String := "json"

structure Options where
  OutputPaths       : List String
  FilePath          : String
  ErrorOutputPaths  : List String
  Level             : Int
  Format            : String
  DisableCaller     : Bool
  DisableStacktrace : Bool
  EnableColor       : Bool
  Development       : Bool
  MaxSize           : Int
  MaxBackups        : Int
  MaxAge            : Int
  Compress          : Bool
  Name              : String
deriving DecidableEq, Repr

/-- `newDefaultOptions` (part_000 lines 91-108). -/
def newDefaultOptions : Options :=
  { Level             := InfoLevel
    Format            := consoleFormat
    OutputPaths       := [StdoutOutputPath]
    ErrorOutputPaths  := ["stderr"]
    DisableCaller     := false
    DisableStacktrace := false
    EnableColor       := true
    Development       := false
    MaxSize           := 100
    MaxBackups        := 5
    MaxAge            := 7
    Compress          := false
    Name              := "app-logger"
    FilePath          := "app.log" }

/-! ## Validation (part_000 lines 210-219) -/

inductive ValidateError where
  | invalidFormat (format : String)
deriving DecidableEq, Repr

/-- `(o *options) Validate() []error`: appends one error when the
lowercased format is neither `console` nor `json`. -/
def Options.Validate (o : Options) : List ValidateError :=
  let errs : List ValidateError := []
  let format := strToLower o.Format
  let errs :=
    if format ≠ consoleFormat ∧ format ≠ jsonFormat then
      errs ++ [ValidateError.invalidFormat o.Format]
    else errs
  errs

/-! ## Go interface values

`WithValues` and the `...w` methods take `...interface{}` arguments; a
small closed universe of Go values suffices for the claims.
`goSprintV` is `fmt.Sprintf` with the default `%v` verb. -/

inductive GoValue where
  | str (s : String)
  | int (n : Int)
  | bool (b : Bool)
deriving DecidableEq, Repr

def goSprintV : GoValue → String
  | GoValue.str s => s
  | GoValue.int n => toString n
  | GoValue.bool b => if b then "true" else "false"

/-- `zap.Any(key, value)`: a typed field. -/
structure Field where
  key   : String
  value : GoValue
deriving DecidableEq, Repr

/-! ## The build pipeline (part_000 lines 139-208)

The zap objects `build` assembles are modelled structurally: an encoder
configuration (its function-valued members — line ending, time, duration,
caller and name encoders — are single fixed values in the source and are
elided), an encoder, one core per recognized output path, and the final
logger options (`AddCaller`, `AddStacktrace(PanicLevel)`, `Named`). -/

inductive LevelEncoder where
  | capital
  | capitalColor
deriving DecidableEq, Repr

structure EncoderConfig where
  MessageKey    : String
  LevelKey      : String
  TimeKey       : String
  NameKey       : String
  CallerKey     : String
  StacktraceKey : String
  EncodeLevel   : LevelEncoder
deriving DecidableEq, Repr

inductive Encoder where
  | json (cfg : EncoderConfig)
  | console (cfg : EncoderConfig)
deriving DecidableEq, Repr

/-- The `lumberjack.Logger` rotating-file writer configuration. -/
structure LumberjackLogger where
  Filename   : String
  MaxSize    : Int
  MaxBackups : Int
  MaxAge     : Int
  Compress   : Bool
deriving DecidableEq, Repr

inductive Sink where
  | stdout
  | file (writer : LumberjackLogger)
deriving DecidableEq, Repr

/-- `zapcore.NewCore(encoder, sink, level)`. -/
structure Core where
  encoder : Encoder
  sink    : Sink
  level   : Int
deriving DecidableEq, Repr

/-- The configured `zap.Logger`: the tee of cores plus the options the
facade passes to `zap.New` / `Named` / `With`. -/
structure Backend where
  core            : List Core
  addCaller       : Bool
  stacktraceLevel : Int
  name            : String
  boundFields     : List Field
deriving DecidableEq, Repr

/-- `zapLevel` resolution (part_000 lines 140-143): unmarshal the level
name; on failure fall back to `zapcore.InfoLevel`. -/
def buildZapLevel (o : Options) : Int :=
  match zapUnmarshalText (LevelNameMapping o.Level) with
  | some l => l
  | none => zapInfoLevel

/-- `encodeLevel` selection (part_000 lines 146-149). -/
def buildEncodeLevel (o : Options) : LevelEncoder :=
  if o.Format = consoleFormat ∧ o.EnableColor then LevelEncoder.capitalColor
  else LevelEncoder.capital

/-- `encoderConfig` (part_000 lines 151-164). -/
def buildEncoderConfig (o : Options) : EncoderConfig :=
  { MessageKey    := "message"
    LevelKey      := "level"
    TimeKey       := "timestamp"
    NameKey       := "logger"
    CallerKey     := "caller"
    StacktraceKey := "stacktrace"
    EncodeLevel   := buildEncodeLevel o }

/-- Encoder selection (part_000 lines 166-171): JSON when `Format` is
exactly `json`, console otherwise. -/
def buildEncoder (o : Options) : Encoder :=
  if o.Format = jsonFormat then Encoder.json (buildEncoderConfig o)
  else Encoder.console (buildEncoderConfig o)

/-- The body of the per-path loop (part_000 lines 176-191): a core for
`stdout`, a rotating-file core for `file`, nothing otherwise. -/
def coreForPath (encoder : Encoder) (zapLevel : Int) (o : Options)
    (path : String) : Option Core :=
  if path = StdoutOutputPath then
    some { encoder := encoder, sink := Sink.stdout, level := zapLevel }
  else if path = FileOutputPath then
    some { encoder := encoder
           sink := Sink.file
             { Filename   := o.FilePath
               MaxSize    := o.MaxSize
               MaxBackups := o.MaxBackups
               MaxAge     := o.MaxAge
               Compress   := o.Compress }
           level := zapLevel }
  else none

/-- `(o *options) build() (*zap.Logger, error)` (part_000 lines 139-208). -/
def Options.build (o : Options) : Except String Backend :=
  let zapLevel := buildZapLevel o
  let encoder := buildEncoder o
  let cores := o.OutputPaths.filterMap (coreForPath encoder zapLevel o)
  if cores.length = 0 then
    Except.error "no valid output paths configured"
  else
    let lg : Backend :=
      { core := cores
        addCaller := true
        stacktraceLevel := zapPanicLevel
        name := ""
        boundFields := [] }
    let lg := if o.Name ≠ "" then { lg with name := o.Name } else lg
    Except.ok lg

/-! ## Functional option setters (part_000 lines 244-290)

Go's `type Option func(*options)` mutates through a pointer; the
functional model is `Options → Options`. -/

def WithLevel (level : Int) : Options → Options :=
  fun o => { o with Level := level }

def WithOutputPaths (outputPaths : List String) : Options → Options :=
  fun o => { o with OutputPaths := outputPaths }

def WithErrorOutputPaths (errorOutputPaths : List String) : Options → Options :=
  fun o => { o with ErrorOutputPaths := errorOutputPaths }

def WithDisableCaller (disableCaller : Bool) : Options → Options :=
  fun o => { o with DisableCaller := disableCaller }

def WithDisableStacktrace (disableStacktrace : Bool) : Options → Options :=
  fun o => { o with DisableStacktrace := disableStacktrace }

def WithEnableColor (enableColor : Bool) : Options → Options :=
  fun o => { o with EnableColor := enableColor }

def WithName (n : String) : Options → Options :=
  fun o => { o with Name := n }

def WithDevelopment (development : Bool) : Options → Options :=
  fun o => { o with Development := development }

def WithMaxSize (maxSize : Int) : Options → Options :=
  fun o => { o with MaxSize := maxSize }

def WithMaxBackups (maxBackups : Int) : Options → Options :=
  fun o => { o with MaxBackups := maxBackups }

def WithMaxAge (maxAge : Int) : Options → Options :=
  fun o => { o with MaxAge := maxAge }

def WithCompress (compress : Bool) : Options → Options :=
  fun o => { o with Compress := compress }

def WithFilePath (filePath : String) : Options → Options :=
  fun o => { o with FilePath := filePath }

/-! ## The Logger facade (log.go)

The Go `Logger` holds `opt *Options`, `logger *zap.Logger`, a mutex and
an unused `sync.Pool`.  The mutex and pool carry no logical state and
are elided; the possibly-nil backend pointer is `Option Backend`.  A
method that dereferences a nil `*zap.Logger` (every forwarding method
does, with no guard) is modelled as returning an explicit
`nilPointerDereference` runtime error. -/

inductive RuntimeErr where
  | nilPointerDereference
deriving DecidableEq, Repr

structure Logger where
  opt    : Options
  logger : Option Backend
deriving DecidableEq, Repr

/-- `NewLoggerByOption` (log.go lines 47-51): no backend built yet. -/
def NewLoggerByOption (options : Options) : Logger :=
  { opt := options, logger := none }

/-- `NewLogger` (log.go lines 52-56). -/
def NewLogger : Logger :=
  { opt := newDefaultOptions, logger := none }

/-- `SetOptions` (part_000 lines 291-297): applies each setter in turn
to the stored options (the mutex is elided). -/
def Logger.SetOptions (l : Logger) (opts : List (Options → Options)) : Logger :=
  { l with opt := opts.foldl (fun o f => f o) l.opt }

/-- `(l *Logger) Build() error` (log.go lines 58-65): on error the
receiver is untouched; on success the handle is replaced.  Modelled as
state passing: the returned pair is (error, updated receiver). -/
def Logger.Build (l : Logger) : Option String × Logger :=
  match l.opt.build with
  | Except.error e => (some e, l)
  | Except.ok logger => (none, { l with logger := some logger })

/-- Field assembly inside `WithValues` (log.go lines 144-152): pair
argument 2i (stringified with `%v`) with argument 2i+1, padding a
missing trailing value with `"MISSING"`. -/
def withValuesFields : List GoValue → List Field
  | [] => []
  | [k] => [{ key := goSprintV k, value := GoValue.str "MISSING" }]
  | k :: v :: rest =>
      { key := goSprintV k, value := v } :: withValuesFields rest

/-- `WithValues` (log.go lines 139-157): the zero-argument case returns
the receiver itself; otherwise `l.logger.With(fields...)` dereferences
the handle and the shallow copy carries the new handle. -/
def Logger.WithValues (l : Logger) (keysAndValues : List GoValue) :
    Except RuntimeErr Logger :=
  if keysAndValues.length = 0 then Except.ok l
  else
    match l.logger with
    | none => Except.error RuntimeErr.nilPointerDereference
    | some b =>
        let b2 : Backend :=
          { b with boundFields := b.boundFields ++ withValuesFields keysAndValues }
        Except.ok { l with logger := some b2 }

/-- `Flush` (log.go lines 158-160): `l.logger.Sync()` dereferences the
handle; the sync error itself is discarded. -/
def Logger.Flush (l : Logger) : Except RuntimeErr Unit :=
  match l.logger with
  | none => Except.error RuntimeErr.nilPointerDereference
  | some _ => Except.ok ()

/-! ## Forwarding methods (log.go lines 67-137)

Every method forwards unconditionally to `l.logger` (directly or via
`Sugar()`); each dereferences the handle with no nil guard.  The write
itself is the external backend's effect and is elided; what the model
retains is the dereference. -/

def Logger.Info (l : Logger) (msg : String) (fields : List Field) :
    Except RuntimeErr Unit :=
  match l.logger with
  | none => Except.error RuntimeErr.nilPointerDereference
  | some _ => Except.ok ()

def Logger.Debug (l : Logger) (msg : String) (fields : List Field) :
    Except RuntimeErr Unit :=
  match l.logger with
  | none => Except.error RuntimeErr.nilPointerDereference
  | some _ => Except.ok ()

def Logger.Warn (l : Logger) (msg : String) (fields : List Field) :
    Except RuntimeErr Unit :=
  match l.logger with
  | none => Except.error RuntimeErr.nilPointerDereference
  | some _ => Except.ok ()

def Logger.Error (l : Logger) (msg : String) (fields : List Field) :
    Except RuntimeErr Unit :=
  match l.logger with
  | none => Except.error RuntimeErr.nilPointerDereference
  | some _ => Except.ok ()

def Logger.Panic (l : Logger) (msg : String) (fields : List Field) :
    Except RuntimeErr Unit :=
  match l.logger with
  | none => Except.error RuntimeErr.nilPointerDereference
  | some _ => Except.ok ()

def Logger.Fatal (l : Logger) (msg : String) (fields : List Field) :
    Except RuntimeErr Unit :=
  match l.logger with
  | none => Except.error RuntimeErr.nilPointerDereference
  | some _ => Except.ok ()

def Logger.Infof (l : Logger) (format : String) (v : List GoValue) :
    Except RuntimeErr Unit :=
  match l.logger with
  | none => Except.error RuntimeErr.nilPointerDereference
  | some _ => Except.ok ()

def Logger.Debugf (l : Logger) (format : String) (v : List GoValue) :
    Except RuntimeErr Unit :=
  match l.logger with
  | none => Except.error RuntimeErr.nilPointerDereference
  | some _ => Except.ok ()

def Logger.Warnf (l : Logger) (format : String) (v : List GoValue) :
    Except RuntimeErr Unit :=
  match l.logger with
  | none => Except.error RuntimeErr.nilPointerDereference
  | some _ => Except.ok ()

def Logger.Errorf (l : Logger) (format : String) (v : List GoValue) :
    Except RuntimeErr Unit :=
  match l.logger with
  | none => Except.error RuntimeErr.nilPointerDereference
  | some _ => Except.ok ()

def Logger.Fatalf (l : Logger) (format : String) (v : List GoValue) :
    Except RuntimeErr Unit :=
  match l.logger with
  | none => Except.error RuntimeErr.nilPointerDereference
  | some _ => Except.ok ()

def Logger.Panicf (l : Logger) (format : String) (v : List GoValue) :
    Except RuntimeErr Unit :=
  match l.logger with
  | none => Except.error RuntimeErr.nilPointerDereference
  | some _ => Except.ok ()

def Logger.Infow (l : Logger) (msg : String) (keysAndValues : List GoValue) :
    Except RuntimeErr Unit :=
  match l.logger with
  | none => Except.error RuntimeErr.nilPointerDereference
  | some _ => Except.ok ()

def Logger.Debugw (l : Logger) (msg : String) (keysAndValues : List GoValue) :
    Except RuntimeErr Unit :=
  match l.logger with
  | none => Except.error RuntimeErr.nilPointerDereference
  | some _ => Except.ok ()

def Logger.Warnw (l : Logger) (msg : String) (keysAndValues : List GoValue) :
    Except RuntimeErr Unit :=
  match l.logger with
  | none => Except.error RuntimeErr.nilPointerDereference
  | some _ => Except.ok ()

def Logger.Errorw (l : Logger) (msg : String) (keysAndValues : List GoValue) :
    Except RuntimeErr Unit :=
  match l.logger with
  | none => Except.error RuntimeErr.nilPointerDereference
  | some _ => Except.ok ()

def Logger.Fatalw (l : Logger) (msg : String) (keysAndValues : List GoValue) :
    Except RuntimeErr Unit :=
  match l.logger with
  | none => Except.error RuntimeErr.nilPointerDereference
  | some _ => Except.ok ()

def Logger.Panicw (l : Logger) (msg : String) (keysAndValues : List GoValue) :
    Except RuntimeErr Unit :=
  match l.logger with
  | none => Except.error RuntimeErr.nilPointerDereference
  | some _ => Except.ok ()

/-! ## Auxiliary predicates used by theorem statements -/

/-- A path the per-path loop recognizes. -/
def hasRecognizedPath (o : Options) : Bool :=
  o.OutputPaths.any (fun p => p == StdoutOutputPath || p == FileOutputPath)

/-- Whether a build result (when successful) has caller capture on and
the stack-trace threshold at zap's Panic level. -/
def backendCallerStackOK : Except String Backend → Bool
  | Except.ok h => h.addCaller && (h.stacktraceLevel == zapPanicLevel)
  | Except.error _ => true

/-- The level name survives a round trip through the backend parser. -/
def zapRoundTripOK (l : Int) : Bool :=
  match zapUnmarshalText (LevelNameMapping l) with
  | some zl => zapCapitalString zl == LevelNameMapping l
  | none => false

/-- All fourteen `Options` fields as one tuple, to state frame
conditions of the setters field by field. -/
def fieldsVec (o : Options) :
    List String × String × List String × Int × String × Bool × Bool ×
      Bool × Bool × Int × Int × Int × Bool × String :=
  (o.OutputPaths, o.FilePath, o.ErrorOutputPaths, o.Level, o.Format,
   o.DisableCaller, o.DisableStacktrace, o.EnableColor, o.Development,
   o.MaxSize, o.MaxBackups, o.MaxAge, o.Compress, o.Name)

/-- Whether `build` produced a (non-nil) backend handle. -/
def buildSucceeds : Except String Backend → Bool
  | Except.ok _ => true
  | Except.error _ => false

/-- Whether every core of a successful build result carries the JSON
encoder. -/
def encoderOfBuildIsJSON : Except String Backend → Bool
  | Except.ok b =>
      b.core.all fun c =>
        match c.encoder with
        | Encoder.json _ => true
        | Encoder.console _ => false
  | Except.error _ => false

/-- Concrete options whose output paths are empty, so `build` fails. -/
def optsNoPaths : Options := { newDefaultOptions with OutputPaths := [] }

/-- Options that spell the JSON format in uppercase: they pass the
case-insensitive validation, yet `build` compares `Format` exactly. -/
def optJSONUpper : Options := { newDefaultOptions with Format := "JSON" }

/-- Options whose format is exactly the lowercase `json`. -/
def optJsonExact : Options := { newDefaultOptions with Format := jsonFormat }

/-! ## Helper lemmas -/

/-- `build` written without the intermediate name-tagging `let`. -/
theorem build_eq (o : Options) :
    o.build =
      (if (o.OutputPaths.filterMap
            (coreForPath (buildEncoder o) (buildZapLevel o) o)).length = 0 then
        Except.error "no valid output paths configured"
      else
        Except.ok
          { core := o.OutputPaths.filterMap
              (coreForPath (buildEncoder o) (buildZapLevel o) o)
            addCaller := true
            stacktraceLevel := zapPanicLevel
            name := if o.Name ≠ "" then o.Name else ""
            boundFields := [] }) := by
  unfold Options.build
  by_cases h : o.Name = "" <;> simp [h]

/-- The loop creates a core for a path exactly when the path is
recognized. -/
theorem coreForPath_eq_none_iff (enc : Encoder) (zl : Int) (o : Options)
    (p : String) :
    coreForPath enc zl o p = none ↔
      (p == StdoutOutputPath || p == FileOutputPath) = false := by
  unfold coreForPath
  split_ifs with h1 h2 <;> simp_all

/-- The core list is empty exactly when no output path is recognized. -/
theorem cores_empty_iff (enc : Encoder) (zl : Int) (o : Options) :
    (o.OutputPaths.filterMap (coreForPath enc zl o)).length = 0 ↔
      hasRecognizedPath o = false := by
  rw [List.length_eq_zero, List.filterMap_eq_nil_iff]
  unfold hasRecognizedPath
  rw [List.any_eq_false]
  refine forall_congr' fun p => forall_congr' fun _ => ?_
  rw [coreForPath_eq_none_iff]
  simp

/-! ## Claim theorems -/

/-- C2: `LevelNameMapping` has exactly one entry for each of the six
enumerated levels, carrying the expected uppercase name, and each name
round-trips through the backend's level parser: parsing succeeds and the
parsed backend level prints back as the same name (so the level, as
identified by its name, is preserved; the build step never falls back to
Info for an enumerated level). -/
theorem levelNameMapping_exact_and_roundtrip :
    levelNameMappingList.length = 6
  ∧ levelNameMappingList.filter (fun e => e.1 == DebugLevel) = [(DebugLevel, "DEBUG")]
  ∧ levelNameMappingList.filter (fun e => e.1 == InfoLevel) = [(InfoLevel, "INFO")]
  ∧ levelNameMappingList.filter (fun e => e.1 == WarnLevel) = [(WarnLevel, "WARN")]
  ∧ levelNameMappingList.filter (fun e => e.1 == ErrorLevel) = [(ErrorLevel, "ERROR")]
  ∧ levelNameMappingList.filter (fun e => e.1 == PanicLevel) = [(PanicLevel, "PANIC")]
  ∧ levelNameMappingList.filter (fun e => e.1 == FatalLevel) = [(FatalLevel, "FATAL")]
  ∧ zapRoundTripOK DebugLevel = true
  ∧ zapRoundTripOK InfoLevel = true
  ∧ zapRoundTripOK WarnLevel = true
  ∧ zapRoundTripOK ErrorLevel = true
  ∧ zapRoundTripOK PanicLevel = true
  ∧ zapRoundTripOK FatalLevel = true := by decide

/-- C5: `Validate` returns no error exactly when the format is
case-insensitively `console` or `json`, and otherwise exactly one error
naming the offending format value. -/
theorem validate_format (o : Options) (s : String) :
    Options.Validate { o with Format := s } =
      (if strToLower s = consoleFormat ∨ strToLower s = jsonFormat then []
       else [ValidateError.invalidFormat s]) := by
  unfold Options.Validate
  by_cases h1 : strToLower s = consoleFormat <;>
    by_cases h2 : strToLower s = jsonFormat <;>
      simp [h1, h2]

/-- C7: `WithValues` with an empty argument list returns the receiver
itself — same options, same backend handle, no new handle. -/
theorem withValues_nil_identity (l : Logger) :
    l.WithValues [] = Except.ok l := rfl

/-- C8: each functional option setter replaces exactly its own field
with the supplied value and leaves the thirteen other fields untouched
(the field tuple is `(OutputPaths, FilePath, ErrorOutputPaths, Level,
Format, DisableCaller, DisableStacktrace, EnableColor, Development,
MaxSize, MaxBackups, MaxAge, Compress, Name)`), and `SetOptions`
applies the given setters to the stored options in sequence. -/
theorem setters_frame_and_setOptions_sequence (o : Options) (lv : Int)
    (ps eps : List String) (dc ds ec dev cp : Bool) (nm fp : String)
    (ms mb ma : Int) (l : Logger) (f : Options → Options)
    (os1 os2 : List (Options → Options)) :
    fieldsVec (WithLevel lv o) =
      (o.OutputPaths, o.FilePath, o.ErrorOutputPaths, lv, o.Format,
       o.DisableCaller, o.DisableStacktrace, o.EnableColor, o.Development,
       o.MaxSize, o.MaxBackups, o.MaxAge, o.Compress, o.Name)
  ∧ fieldsVec (WithOutputPaths ps o) =
      (ps, o.FilePath, o.ErrorOutputPaths, o.Level, o.Format,
       o.DisableCaller, o.DisableStacktrace, o.EnableColor, o.Development,
       o.MaxSize, o.MaxBackups, o.MaxAge, o.Compress, o.Name)
  ∧ fieldsVec (WithErrorOutputPaths eps o) =
      (o.OutputPaths, o.FilePath, eps, o.Level, o.Format,
       o.DisableCaller, o.DisableStacktrace, o.EnableColor, o.Development,
       o.MaxSize, o.MaxBackups, o.MaxAge, o.Compress, o.Name)
  ∧ fieldsVec (WithDisableCaller dc o) =
      (o.OutputPaths, o.FilePath, o.ErrorOutputPaths, o.Level, o.Format,
       dc, o.DisableStacktrace, o.EnableColor, o.Development,
       o.MaxSize, o.MaxBackups, o.MaxAge, o.Compress, o.Name)
  ∧ fieldsVec (WithDisableStacktrace ds o) =
      (o.OutputPaths, o.FilePath, o.ErrorOutputPaths, o.Level, o.Format,
       o.DisableCaller, ds, o.EnableColor, o.Development,
       o.MaxSize, o.MaxBackups, o.MaxAge, o.Compress, o.Name)
  ∧ fieldsVec (WithEnableColor ec o) =
      (o.OutputPaths, o.FilePath, o.ErrorOutputPaths, o.Level, o.Format,
       o.DisableCaller, o.DisableStacktrace, ec, o.Development,
       o.MaxSize, o.MaxBackups, o.MaxAge, o.Compress, o.Name)
  ∧ fieldsVec (WithName nm o) =
      (o.OutputPaths, o.FilePath, o.ErrorOutputPaths, o.Level, o.Format,
       o.DisableCaller, o.DisableStacktrace, o.EnableColor, o.Development,
       o.MaxSize, o.MaxBackups, o.MaxAge, o.Compress, nm)
  ∧ fieldsVec (WithDevelopment dev o) =
      (o.OutputPaths, o.FilePath, o.ErrorOutputPaths, o.Level, o.Format,
       o.DisableCaller, o.DisableStacktrace, o.EnableColor, dev,
       o.MaxSize, o.MaxBackups, o.MaxAge, o.Compress, o.Name)
  ∧ fieldsVec (WithMaxSize ms o) =
      (o.OutputPaths, o.FilePath, o.ErrorOutputPaths, o.Level, o.Format,
       o.DisableCaller, o.DisableStacktrace, o.EnableColor, o.Development,
       ms, o.MaxBackups, o.MaxAge, o.Compress, o.Name)
  ∧ fieldsVec (WithMaxBackups mb o) =
      (o.OutputPaths, o.FilePath, o.ErrorOutputPaths, o.Level, o.Format,
       o.DisableCaller, o.DisableStacktrace, o.EnableColor, o.Development,
       o.MaxSize, mb, o.MaxAge, o.Compress, o.Name)
  ∧ fieldsVec (WithMaxAge ma o) =
      (o.OutputPaths, o.FilePath, o.ErrorOutputPaths, o.Level, o.Format,
       o.DisableCaller, o.DisableStacktrace, o.EnableColor, o.Development,
       o.MaxSize, o.MaxBackups, ma, o.Compress, o.Name)
  ∧ fieldsVec (WithCompress cp o) =
      (o.OutputPaths, o.FilePath, o.ErrorOutputPaths, o.Level, o.Format,
       o.DisableCaller, o.DisableStacktrace, o.EnableColor, o.Development,
       o.MaxSize, o.MaxBackups, o.MaxAge, cp, o.Name)
  ∧ fieldsVec (WithFilePath fp o) =
      (o.OutputPaths, fp, o.ErrorOutputPaths, o.Level, o.Format,
       o.DisableCaller, o.DisableStacktrace, o.EnableColor, o.Development,
       o.MaxSize, o.MaxBackups, o.MaxAge, o.Compress, o.Name)
  ∧ Logger.SetOptions l (os1 ++ os2) =
      Logger.SetOptions (Logger.SetOptions l os1) os2
  ∧ Logger.SetOptions l [f] = { l with opt := f l.opt } := by
  refine ⟨rfl, rfl, rfl, rfl, rfl, rfl, rfl, rfl, rfl, rfl, rfl, rfl, rfl,
    ?_, rfl⟩
  simp [Logger.SetOptions, List.foldl_append]

/-- C9: when the options build fails, `Logger.Build` returns that error
and the receiver — in particular its stored backend handle — is
unchanged; the handle is replaced only when the build succeeds. -/
theorem logger_build_error_preserves_handle (l : Logger) :
    (∀ e, l.opt.build = Except.error e → l.Build = (some e, l))
  ∧ (∀ b, l.opt.build = Except.ok b →
      l.Build = (none, { l with logger := some b })) := by
  constructor <;> intro x h <;> simp [Logger.Build, h]

/-- Witness for C9: a logger built from empty output paths gets the
configuration error back and keeps its nil handle. -/
theorem logger_build_error_preserves_handle_witness :
    (NewLoggerByOption optsNoPaths).Build =
      (some "no valid output paths configured", NewLoggerByOption optsNoPaths)
  ∧ (NewLoggerByOption optsNoPaths).logger = none :=
  ⟨(logger_build_error_preserves_handle (NewLoggerByOption optsNoPaths)).1
      "no valid output paths configured" rfl, rfl⟩

/-- C1: `build` succeeds with a backend handle exactly when the output
paths contain at least one recognized value (`stdout` or `file`); with
none it fails with the `no valid output paths configured` error, and no
other error message can come out of `build`. -/
theorem build_ok_iff_recognized_path (o : Options) :
    (buildSucceeds o.build = true ↔ hasRecognizedPath o = true)
  ∧ (hasRecognizedPath o = false →
      o.build = Except.error "no valid output paths configured")
  ∧ (∀ e, o.build = Except.error e →
      e = "no valid output paths configured") := by
  rw [build_eq]
  by_cases h : (o.OutputPaths.filterMap
      (coreForPath (buildEncoder o) (buildZapLevel o) o)).length = 0
  · have hrec : hasRecognizedPath o = false :=
      (cores_empty_iff (buildEncoder o) (buildZapLevel o) o).mp h
    rw [if_pos h]
    refine ⟨?_, fun _ => rfl, fun e he => ?_⟩
    · simp [buildSucceeds, hrec]
    · injection he with h'
      exact h'.symm
  · have hrec : hasRecognizedPath o = true := by
      cases hb : hasRecognizedPath o with
      | true => rfl
      | false =>
          exact absurd
            ((cores_empty_iff (buildEncoder o) (buildZapLevel o) o).mpr hb) h
    rw [if_neg h]
    refine ⟨?_, ?_, fun e he => ?_⟩
    · simp [buildSucceeds, hrec]
    · intro hfalse
      rw [hrec] at hfalse
      exact absurd hfalse (by simp)
    · exact absurd he (by simp)

/-- Witness for C1: the default options (stdout only) build
successfully; options with no output paths get the configuration
error. -/
theorem build_ok_iff_recognized_path_witness :
    buildSucceeds newDefaultOptions.build = true
  ∧ optsNoPaths.build = Except.error "no valid output paths configured" :=
  ⟨(build_ok_iff_recognized_path newDefaultOptions).1.mpr rfl,
   (build_ok_iff_recognized_path optsNoPaths).2.1 rfl⟩

/-- C3: `build` never reads `DisableCaller`/`DisableStacktrace`:
changing those two fields arbitrarily leaves the built backend
identical, and every successfully built backend has caller capture on
and the automatic stack-trace threshold hard-coded at zap's Panic
level. -/
theorem build_ignores_disable_flags (o : Options) (b c : Bool) :
    Options.build { o with DisableCaller := b, DisableStacktrace := c } = o.build
  ∧ backendCallerStackOK o.build = true := by
  refine ⟨rfl, ?_⟩
  rw [build_eq]
  by_cases h : (o.OutputPaths.filterMap
      (coreForPath (buildEncoder o) (buildZapLevel o) o)).length = 0
  · rw [if_pos h]; rfl
  · rw [if_neg h]; simp [backendCallerStackOK]

/-- C4 counterexample: `Format = "JSON"` passes `Validate` (which
lowercases) and builds successfully, but `build`'s encoder selection
compares `Format` to `"json"` exactly, so the built cores carry the
console encoder, not the JSON one. -/
theorem json_uppercase_passes_validate_but_gets_console_encoder :
    optJSONUpper.Validate = []
  ∧ strToLower optJSONUpper.Format = jsonFormat
  ∧ buildSucceeds optJSONUpper.build = true
  ∧ encoderOfBuildIsJSON optJSONUpper.build = false := by decide

/-- C4 amended: the encoder selection is case-sensitive.  When `Format`
is exactly `json`, build selects the JSON encoder (with the plain
capital level renderer); when `Format` is exactly `console` and
`EnableColor` is set, build selects the console encoder with the
colorized level renderer; and every built core carries the selected
encoder.  Other casings that pass the case-insensitive validation fall
through to the console encoder without the colorized renderer. -/
theorem encoder_selection_exact_case (o : Options) :
    (o.Format = jsonFormat →
      buildEncoder o = Encoder.json (buildEncoderConfig o)
      ∧ buildEncodeLevel o = LevelEncoder.capital)
  ∧ (o.Format = consoleFormat → o.EnableColor = true →
      buildEncoder o = Encoder.console (buildEncoderConfig o)
      ∧ buildEncodeLevel o = LevelEncoder.capitalColor)
  ∧ (∀ b, o.build = Except.ok b →
      ∀ c ∈ b.core, c.encoder = buildEncoder o) := by
  refine ⟨?_, ?_, ?_⟩
  · intro h
    refine ⟨?_, ?_⟩
    · unfold buildEncoder
      rw [if_pos h]
    · unfold buildEncodeLevel
      rw [if_neg]
      rintro ⟨hc, _⟩
      rw [h] at hc
      exact absurd hc (by decide)
  · intro hc hec
    refine ⟨?_, ?_⟩
    · unfold buildEncoder
      rw [if_neg]
      rw [hc]
      decide
    · unfold buildEncodeLevel
      rw [if_pos ⟨hc, hec⟩]
  · intro b hb c hc
    rw [build_eq] at hb
    by_cases h : (o.OutputPaths.filterMap
        (coreForPath (buildEncoder o) (buildZapLevel o) o)).length = 0
    · rw [if_pos h] at hb
      exact absurd hb (by simp)
    · rw [if_neg h] at hb
      injection hb with hb'
      rw [← hb'] at hc
      rcases List.mem_filterMap.mp hc with ⟨p, _, hsome⟩
      unfold coreForPath at hsome
      split_ifs at hsome
      · cases hsome
        rfl
      · cases hsome
        rfl

/-- Witness for C4 amended: exact lowercase `json` selects the JSON
encoder, and the default options (`console` with color on) select the
console encoder with the colorized renderer. -/
theorem encoder_selection_exact_case_witness :
    (buildEncoder optJsonExact = Encoder.json (buildEncoderConfig optJsonExact)
      ∧ buildEncodeLevel optJsonExact = LevelEncoder.capital)
  ∧ (buildEncoder newDefaultOptions = Encoder.console (buildEncoderConfig newDefaultOptions)
      ∧ buildEncodeLevel newDefaultOptions = LevelEncoder.capitalColor) :=
  ⟨(encoder_selection_exact_case optJsonExact).1 rfl,
   (encoder_selection_exact_case newDefaultOptions).2.1 rfl rfl⟩

/-- C6: the field list `WithValues` builds pairs argument 2i,
stringified with default `%v` formatting, with argument 2i+1 as value;
when the list has odd length the trailing value defaults to the
sentinel `"MISSING"` (the `getD` default on the key side is never
reached, since `2 * i` is in range for every field index `i`). -/
theorem withValues_pairing (ks : List GoValue) :
    (withValuesFields ks).length = (ks.length + 1) / 2
  ∧ ∀ i (h : i < (withValuesFields ks).length),
      (withValuesFields ks).get ⟨i, h⟩ =
        { key := goSprintV (ks.getD (2 * i) (GoValue.str ""))
          value := ks.getD (2 * i + 1) (GoValue.str "MISSING") } := by
  induction ks using withValuesFields.induct with
  | case1 =>
      refine ⟨rfl, ?_⟩
      intro i h
      exact absurd h (Nat.not_lt_zero i)
  | case2 k =>
      refine ⟨by simp [withValuesFields], ?_⟩
      intro i h
      cases i with
      | zero => rfl
      | succ n =>
          simp only [withValuesFields, List.length_singleton] at h
          omega
  | case3 k v rest ih =>
      obtain ⟨ihlen, ihget⟩ := ih
      constructor
      · simp only [withValuesFields, List.length_cons, ihlen]
        omega
      · intro i h
        cases i with
        | zero => rfl
        | succ n =>
            have h' : n < (withValuesFields rest).length := by
              simp only [withValuesFields, List.length_cons] at h
              omega
            have hstep :
                (withValuesFields (k :: v :: rest)).get ⟨n + 1, h⟩ =
                  (withValuesFields rest).get ⟨n, h'⟩ := rfl
            rw [hstep, ihget n h']
            have h2 : 2 * (n + 1) = 2 * n + 1 + 1 := by omega
            rw [h2]
            simp only [List.getD_cons_succ]

/-- Witness for C6: `WithValues("key")` produces the single bound field
`key = "MISSING"`. -/
theorem withValues_pairing_witness :
    (withValuesFields [GoValue.str "key"]).length = 1
  ∧ (withValuesFields [GoValue.str "key"]).get ⟨0, by decide⟩ =
      { key := "key", value := GoValue.str "MISSING" } := by
  refine ⟨((withValues_pairing [GoValue.str "key"]).1).trans (by decide), ?_⟩
  have h := (withValues_pairing [GoValue.str "key"]).2 0 (by decide)
  simpa using h

/-- C10: a logger fresh from `NewLogger` or `NewLoggerByOption` holds a
nil backend handle, and every leveled, formatted or structured logging
method, `WithValues` with a non-empty argument list, and `Flush`
forward to that handle with no nil guard, dereferencing the nil
pointer. -/
theorem fresh_logger_nil_handle_deref :
    NewLogger.logger = none
  ∧ (∀ o : Options, (NewLoggerByOption o).logger = none)
  ∧ (∀ l : Logger, l.logger = none →
      ∀ (msg fmt : String) (fields : List Field) (args kvs : List GoValue)
        (k : GoValue),
        l.Info msg fields = Except.error RuntimeErr.nilPointerDereference
      ∧ l.Debug msg fields = Except.error RuntimeErr.nilPointerDereference
      ∧ l.Warn msg fields = Except.error RuntimeErr.nilPointerDereference
      ∧ l.Error msg fields = Except.error RuntimeErr.nilPointerDereference
      ∧ l.Panic msg fields = Except.error RuntimeErr.nilPointerDereference
      ∧ l.Fatal msg fields = Except.error RuntimeErr.nilPointerDereference
      ∧ l.Infof fmt args = Except.error RuntimeErr.nilPointerDereference
      ∧ l.Debugf fmt args = Except.error RuntimeErr.nilPointerDereference
      ∧ l.Warnf fmt args = Except.error RuntimeErr.nilPointerDereference
      ∧ l.Errorf fmt args = Except.error RuntimeErr.nilPointerDereference
      ∧ l.Fatalf fmt args = Except.error RuntimeErr.nilPointerDereference
      ∧ l.Panicf fmt args = Except.error RuntimeErr.nilPointerDereference
      ∧ l.Infow msg kvs = Except.error RuntimeErr.nilPointerDereference
      ∧ l.Debugw msg kvs = Except.error RuntimeErr.nilPointerDereference
      ∧ l.Warnw msg kvs = Except.error RuntimeErr.nilPointerDereference
      ∧ l.Errorw msg kvs = Except.error RuntimeErr.nilPointerDereference
      ∧ l.Fatalw msg kvs = Except.error RuntimeErr.nilPointerDereference
      ∧ l.Panicw msg kvs = Except.error RuntimeErr.nilPointerDereference
      ∧ l.WithValues (k :: kvs) = Except.error RuntimeErr.nilPointerDereference
      ∧ l.Flush = Except.error RuntimeErr.nilPointerDereference) := by
  refine ⟨rfl, fun _ => rfl, ?_⟩
  intro l h msg fmt fields args kvs k
  refine ⟨?_, ?_, ?_, ?_, ?_, ?_, ?_, ?_, ?_, ?_, ?_, ?_, ?_, ?_, ?_, ?_,
    ?_, ?_, ?_, ?_⟩ <;>
    simp [Logger.Info, Logger.Debug, Logger.Warn, Logger.Error,
      Logger.Panic, Logger.Fatal, Logger.Infof, Logger.Debugf,
      Logger.Warnf, Logger.Errorf, Logger.Fatalf, Logger.Panicf,
      Logger.Infow, Logger.Debugw, Logger.Warnw, Logger.Errorw,
      Logger.Fatalw, Logger.Panicw, Logger.WithValues, Logger.Flush, h]

/-- Witness for C10: calling `Info`, a non-empty `WithValues`, or
`Flush` on a freshly constructed logger hits the nil dereference. -/
theorem fresh_logger_nil_handle_deref_witness :
    NewLogger.Info "Hello world!" [] =
      Except.error RuntimeErr.nilPointerDereference
  ∧ NewLogger.WithValues [GoValue.str "key", GoValue.str "value"] =
      Except.error RuntimeErr.nilPointerDereference
  ∧ NewLogger.Flush = Except.error RuntimeErr.nilPointerDereference := by
  obtain ⟨h1, _, h3⟩ := fresh_logger_nil_handle_deref
  obtain ⟨hInfo, _, _, _, _, _, _, _, _, _, _, _, _, _, _, _, _, _, hWV, hFl⟩ :=
    h3 NewLogger h1 "Hello world!" "" [] [] [GoValue.str "value"]
      (GoValue.str "key")
  exact ⟨hInfo, hWV, hFl⟩

end LogFacade
